import Mathlib

/-!
Verification development for the AXTSoundSystem repository
(src/SoundSystemProject/SoundSystem/SoundSystem.cpp).

The program is a C-ABI wrapper around the miniaudio engine: a registry
mapping string sound identifiers to engine sound handles, with
load/unload/play/stop/pause/resume/setter/query operations.

Embedding choices:
  * The registry `g_loadedSounds : std::map<std::string, ma_sound*>` is an
    association list `List (String × MaSound)` with unique keys; `std::map`
    ordering is irrelevant to the claims (only key lookup, replacement,
    erasure and insertion of a fresh key occur).
  * A `const char*` argument is `Option String`: `none` is the null pointer.
  * The miniaudio engine itself is not part of this repository's sources, so
    its per-sound primitives are modelled from the spec's collaborator
    contract (§6 of the spec): `stop` halts playback preserving the PCM
    cursor, `start` resumes at the cursor, `seekToFrame` moves the cursor.
  * Each operation returns the new registry together with the list of engine
    calls it issued (in source order) and the diagnostics it emitted, so that
    claims about "invokes the engine's stop primitive" or "warned no-op" are
    directly statable.
  * `float` parameters that are only clamped/compared (volume, pan, pitch,
    coordinates) are modelled as `ℚ`; `std::clamp` and the `pitch <= 0`
    test involve no rounding, so the comparison semantics coincide on the
    values of interest.
-/

/-- Modelled from the spec: the observable per-sound state held by the
external miniaudio engine for one `ma_sound` handle (playing flag, PCM
cursor, looping flag, volume, pan, pitch, 3D position). The engine itself
(`miniaudio.h`) is not among this repository's sources; the fields follow
the spec's data model (§3) and collaborator contract (§6). -/
structure MaSound where
  playing : Bool
  cursor : Nat
  looping : Bool
  volume : ℚ
  pan : ℚ
  pitch : ℚ
  posX : ℚ
  posY : ℚ
  posZ : ℚ
  deriving Repr, DecidableEq

/-- Modelled from the spec: `ma_sound_stop` halts playback; per §3/§4.2 the
position is preserved (Pause is "Stopped with position preserved"). -/
def ma_sound_stop (e : MaSound) : MaSound := { e with playing := false }

/-- Modelled from the spec: `ma_sound_start` starts playback from the
current cursor. -/
def ma_sound_start (e : MaSound) : MaSound := { e with playing := true }

/-- Modelled from the spec: `ma_sound_seek_to_pcm_frame` moves the cursor. -/
def ma_sound_seek_to_pcm_frame (e : MaSound) (frame : Nat) : MaSound :=
  { e with cursor := frame }

/-- Modelled from the spec: `ma_sound_is_playing` reports the live state. -/
def ma_sound_is_playing (e : MaSound) : Bool := e.playing

/-- Modelled from the spec: `ma_sound_set_looping`. -/
def ma_sound_set_looping (e : MaSound) (b : Bool) : MaSound := { e with looping := b }

/-- Modelled from the spec: `ma_sound_set_volume`. -/
def ma_sound_set_volume (e : MaSound) (v : ℚ) : MaSound := { e with volume := v }

/-- Modelled from the spec: `ma_sound_set_pan`. -/
def ma_sound_set_pan (e : MaSound) (p : ℚ) : MaSound := { e with pan := p }

/-- Modelled from the spec: `ma_sound_set_pitch`. -/
def ma_sound_set_pitch (e : MaSound) (p : ℚ) : MaSound := { e with pitch := p }

/-- Modelled from the spec: `ma_sound_set_position`. -/
def ma_sound_set_position (e : MaSound) (x y z : ℚ) : MaSound :=
  { e with posX := x, posY := y, posZ := z }

/-- Embeds `std::clamp(v, lo, hi)` (SoundSystem.cpp uses it on volume and pan). -/
def stdClamp (v lo hi : ℚ) : ℚ := if v < lo then lo else if hi < v then hi else v

/-- One call made by the wrapper into the engine / allocator, recorded in
source order so that call-sequencing claims are statable. -/
inductive EngineCall where
  | stop (id : String)
  | start (id : String)
  | seek (id : String) (frame : Nat)
  | setLooping (id : String) (b : Bool)
  | setVolume (id : String) (v : ℚ)
  | setPan (id : String) (p : ℚ)
  | setPitch (id : String) (p : ℚ)
  | setPosition (id : String) (x y z : ℚ)
  | allocSound
  | initFromFile (path : String)
  | freeSound
  | soundUninit (id : String)
  | engineUninit
  deriving Repr, DecidableEq

/-- Kind of diagnostic message the wrapper emits (MessageBox / cerr / cout
branches in SoundSystem.cpp). -/
inductive Diag where
  | usageError
  | unknownIdWarning
  | duplicateWarning
  | loadError
  | playbackError
  | info
  deriving Repr, DecidableEq

/-- The registry `g_loadedSounds`: identifiers mapped to engine sound state. -/
abbrev Registry := List (String × MaSound)

/-- Embeds `g_loadedSounds.find(s)` (key lookup in the `std::map`). -/
def findSound : Registry → String → Option MaSound
  | [], _ => none
  | (k, e) :: rest, id => if k = id then some e else findSound rest id

/-- Embeds assignment through the iterator returned by `find` : replaces the
value stored under an existing key, leaving all other entries in place. -/
def updateSound : Registry → String → MaSound → Registry
  | [], _, _ => []
  | (k, e) :: rest, id, e2 =>
      if k = id then (k, e2) :: rest else (k, e) :: updateSound rest id e2

/-- Embeds `g_loadedSounds.erase(it)`: removes the entry with the given key. -/
def eraseSound : Registry → String → Registry
  | [], _ => []
  | (k, e) :: rest, id => if k = id then rest else (k, e) :: eraseSound rest id

/-- Result of one wrapper operation: the registry afterwards, the engine
calls issued, and the diagnostics emitted. -/
structure OpResult where
  reg : Registry
  calls : List EngineCall
  diags : List Diag
  deriving Repr, DecidableEq

/-- Embeds `LoadSound(filePath, soundId)` (SoundSystem.cpp lines 74-123).
`decode` stands for `ma_sound_init_from_file` with `MA_SOUND_FLAG_DECODE`:
the engine's decode-and-prepare step, `none` on decode failure. Returns the
C `bool` result paired with the state effects. -/
def LoadSound (decode : String → Option MaSound) (reg : Registry)
    (filePath soundId : Option String) : Bool × OpResult :=
  match filePath, soundId with
  | some fp, some s =>
    if (findSound reg s).isSome then
      (true, ⟨reg, [], [Diag.duplicateWarning]⟩)
    else
      match decode fp with
      | some e =>
          (true, ⟨reg ++ [(s, e)],
                  [EngineCall.allocSound, EngineCall.initFromFile fp],
                  [Diag.info]⟩)
      | none =>
          (false, ⟨reg,
                   [EngineCall.allocSound, EngineCall.initFromFile fp,
                    EngineCall.freeSound],
                   [Diag.loadError]⟩)
  | _, _ => (false, ⟨reg, [], [Diag.usageError]⟩)

/-- Embeds `UnloadSound(soundId)` (SoundSystem.cpp lines 125-154). -/
def UnloadSound (reg : Registry) (soundId : Option String) : OpResult :=
  match soundId with
  | none => ⟨reg, [], [Diag.usageError]⟩
  | some s =>
    match findSound reg s with
    | some e =>
        ⟨eraseSound reg s,
         (if ma_sound_is_playing e then [EngineCall.stop s] else [])
           ++ [EngineCall.soundUninit s],
         [Diag.info]⟩
    | none => ⟨reg, [], [Diag.unknownIdWarning]⟩

/-- Embeds `SndPlaySound(soundId, loop)` (SoundSystem.cpp lines 156-200):
if already playing, stop and seek to frame 0; then set looping and start. -/
def SndPlaySound (reg : Registry) (soundId : Option String) (loop : Bool) : OpResult :=
  match soundId with
  | none => ⟨reg, [], [Diag.usageError]⟩
  | some s =>
    match findSound reg s with
    | some e =>
      if ma_sound_is_playing e then
        ⟨updateSound reg s
           (ma_sound_start (ma_sound_set_looping
             (ma_sound_seek_to_pcm_frame (ma_sound_stop e) 0) loop)),
         [EngineCall.stop s, EngineCall.seek s 0,
          EngineCall.setLooping s loop, EngineCall.start s],
         [Diag.info]⟩
      else
        ⟨updateSound reg s (ma_sound_start (ma_sound_set_looping e loop)),
         [EngineCall.setLooping s loop, EngineCall.start s],
         [Diag.info]⟩
    | none => ⟨reg, [], [Diag.unknownIdWarning]⟩

/-- Embeds `StopSound(soundId)` (SoundSystem.cpp lines 202-243): only if the
sound is playing does it stop and seek to frame 0; otherwise no action. -/
def StopSound (reg : Registry) (soundId : Option String) : OpResult :=
  match soundId with
  | none => ⟨reg, [], [Diag.usageError]⟩
  | some s =>
    match findSound reg s with
    | some e =>
      if ma_sound_is_playing e then
        ⟨updateSound reg s (ma_sound_seek_to_pcm_frame (ma_sound_stop e) 0),
         [EngineCall.stop s, EngineCall.seek s 0],
         [Diag.info]⟩
      else ⟨reg, [], [Diag.info]⟩
    | none => ⟨reg, [], [Diag.unknownIdWarning]⟩

/-- Embeds `PauseSound(soundId)` (SoundSystem.cpp lines 245-279): calls
`ma_sound_stop` unconditionally (no `is_playing` check, no seek). -/
def PauseSound (reg : Registry) (soundId : Option String) : OpResult :=
  match soundId with
  | none => ⟨reg, [], [Diag.usageError]⟩
  | some s =>
    match findSound reg s with
    | some e =>
        ⟨updateSound reg s (ma_sound_stop e), [EngineCall.stop s], [Diag.info]⟩
    | none => ⟨reg, [], [Diag.unknownIdWarning]⟩

/-- Embeds `ResumeSound(soundId)` (SoundSystem.cpp lines 281-315): calls
`ma_sound_start` unconditionally. -/
def ResumeSound (reg : Registry) (soundId : Option String) : OpResult :=
  match soundId with
  | none => ⟨reg, [], [Diag.usageError]⟩
  | some s =>
    match findSound reg s with
    | some e =>
        ⟨updateSound reg s (ma_sound_start e), [EngineCall.start s], [Diag.info]⟩
    | none => ⟨reg, [], [Diag.unknownIdWarning]⟩

/-- Embeds `SetSoundVolume(soundId, volume)` (SoundSystem.cpp lines 326-353):
clamps the volume to [0, 1] before handing it to the engine. -/
def SetSoundVolume (reg : Registry) (soundId : Option String) (volume : ℚ) : OpResult :=
  match soundId with
  | none => ⟨reg, [], [Diag.usageError]⟩
  | some s =>
    match findSound reg s with
    | some e =>
        ⟨updateSound reg s (ma_sound_set_volume e (stdClamp volume 0 1)),
         [EngineCall.setVolume s (stdClamp volume 0 1)], [Diag.info]⟩
    | none => ⟨reg, [], [Diag.unknownIdWarning]⟩

/-- Embeds `SetSoundPan(soundId, pan)` (SoundSystem.cpp lines 355-382):
clamps the pan to [-1, 1] before handing it to the engine. -/
def SetSoundPan (reg : Registry) (soundId : Option String) (pan : ℚ) : OpResult :=
  match soundId with
  | none => ⟨reg, [], [Diag.usageError]⟩
  | some s =>
    match findSound reg s with
    | some e =>
        ⟨updateSound reg s (ma_sound_set_pan e (stdClamp pan (-1) 1)),
         [EngineCall.setPan s (stdClamp pan (-1) 1)], [Diag.info]⟩
    | none => ⟨reg, [], [Diag.unknownIdWarning]⟩

/-- Embeds `SetSoundPitch(soundId, pitch)` (SoundSystem.cpp lines 384-411):
`if (pitch <= 0.0f) pitch = 0.001f;` then hands the value to the engine. -/
def SetSoundPitch (reg : Registry) (soundId : Option String) (pitch : ℚ) : OpResult :=
  match soundId with
  | none => ⟨reg, [], [Diag.usageError]⟩
  | some s =>
    match findSound reg s with
    | some e =>
      let p := if pitch ≤ 0 then (1 : ℚ) / 1000 else pitch
      ⟨updateSound reg s (ma_sound_set_pitch e p),
       [EngineCall.setPitch s p], [Diag.info]⟩
    | none => ⟨reg, [], [Diag.unknownIdWarning]⟩

/-- Embeds `SetSoundPosition(soundId, x, y, z)` (SoundSystem.cpp lines
413-438): applies the coordinates unconditionally. -/
def SetSoundPosition (reg : Registry) (soundId : Option String) (x y z : ℚ) : OpResult :=
  match soundId with
  | none => ⟨reg, [], [Diag.usageError]⟩
  | some s =>
    match findSound reg s with
    | some e =>
        ⟨updateSound reg s (ma_sound_set_position e x y z),
         [EngineCall.setPosition s x y z], [Diag.info]⟩
    | none => ⟨reg, [], [Diag.unknownIdWarning]⟩

/-- Embeds `IsSoundPlaying(soundId)` (SoundSystem.cpp lines 455-466). -/
def IsSoundPlaying (reg : Registry) (soundId : Option String) : Bool :=
  match soundId with
  | none => false
  | some s =>
    match findSound reg s with
    | some e => ma_sound_is_playing e
    | none => false

/-- Embeds the per-entry loop of `ShutdownSoundSystem` (SoundSystem.cpp lines
61-66): for each entry it calls `ma_sound_uninit` and `delete` only — there
is no `is_playing` check and no `ma_sound_stop` call in this loop. -/
def shutdownEntryCalls : Registry → List EngineCall
  | [] => []
  | (k, _) :: rest => EngineCall.soundUninit k :: shutdownEntryCalls rest

/-- Embeds `ShutdownSoundSystem()` (SoundSystem.cpp lines 59-72): uninit
every entry, clear the map, then uninit the engine. -/
def ShutdownSoundSystem (reg : Registry) : OpResult :=
  ⟨[], shutdownEntryCalls reg ++ [EngineCall.engineUninit], [Diag.info]⟩

/-! ### Registry and clamp lemmas -/

/-- Looking up a key right after replacing its value yields the new value,
provided the key was present. -/
theorem findSound_updateSound_self (reg : Registry) (id : String) (e2 e0 : MaSound)
    (h : findSound reg id = some e0) :
    findSound (updateSound reg id e2) id = some e2 := by
  induction reg with
  | nil => simp [findSound] at h
  | cons hd rest ih =>
    obtain ⟨k, e⟩ := hd
    by_cases hk : k = id
    · simp [updateSound, findSound, hk]
    · simp [updateSound, findSound, hk] at h ⊢
      exact ih h

/-- Replacing the value under an existing key never changes the number of
entries in the registry. -/
theorem length_updateSound (reg : Registry) (id : String) (e2 : MaSound) :
    (updateSound reg id e2).length = reg.length := by
  induction reg with
  | nil => rfl
  | cons hd rest ih =>
    obtain ⟨k, e⟩ := hd
    by_cases hk : k = id <;> simp [updateSound, hk, ih]

theorem stdClamp_lower (v lo hi : ℚ) (h : lo ≤ hi) : lo ≤ stdClamp v lo hi := by
  unfold stdClamp; split_ifs <;> linarith

theorem stdClamp_upper (v lo hi : ℚ) (h : lo ≤ hi) : stdClamp v lo hi ≤ hi := by
  unfold stdClamp; split_ifs <;> linarith

theorem stdClamp_of_gt (v lo hi : ℚ) (hle : lo ≤ hi) (h : hi < v) :
    stdClamp v lo hi = hi := by
  unfold stdClamp; split_ifs <;> linarith

theorem stdClamp_of_lt (v lo hi : ℚ) (h : v < lo) : stdClamp v lo hi = lo := by
  unfold stdClamp; simp [h]

theorem stdClamp_of_mem (v lo hi : ℚ) (h1 : lo ≤ v) (h2 : v ≤ hi) :
    stdClamp v lo hi = v := by
  unfold stdClamp; split_ifs <;> linarith

/-- The per-entry shutdown loop issues exactly one `soundUninit` per entry,
in registry order. -/
theorem shutdownEntryCalls_eq_map (reg : Registry) :
    shutdownEntryCalls reg = reg.map (fun q => EngineCall.soundUninit q.1) := by
  induction reg with
  | nil => rfl
  | cons hd rest ih =>
    obtain ⟨k, e⟩ := hd
    simp [shutdownEntryCalls, ih]

/-! ### Concrete states used by witnesses and counterexamples -/

/-- Sample sound state: playing, cursor at frame 7. -/
def soundA : MaSound := ⟨true, 7, false, 1, 0, 1, 0, 0, 0⟩

/-- Sample sound state: stopped, cursor at frame 5. -/
def soundB : MaSound := ⟨false, 5, false, 1, 0, 1, 0, 0, 0⟩

/-! ### Claim theorems -/

/-- C1: for every sound entry present in the registry, `PauseSound` stops
playback without resetting the playback position to frame 0, and
`ResumeSound` afterwards restarts playback from the preserved position;
after Pause immediately followed by Resume the playback position is at
least the position at the moment of Pause. -/
theorem pause_then_resume_preserves_position
    (reg : Registry) (s : String) (e : MaSound)
    (h : findSound reg s = some e) :
    ∃ e1 e2,
      findSound (PauseSound reg (some s)).reg s = some e1 ∧
      e1.playing = false ∧ e1.cursor = e.cursor ∧
      findSound (ResumeSound (PauseSound reg (some s)).reg (some s)).reg s = some e2 ∧
      e2.playing = true ∧ e1.cursor ≤ e2.cursor := by
  have h1 : (PauseSound reg (some s)).reg = updateSound reg s (ma_sound_stop e) := by
    simp [PauseSound, h]
  have hf1 : findSound (updateSound reg s (ma_sound_stop e)) s = some (ma_sound_stop e) :=
    findSound_updateSound_self reg s _ e h
  refine ⟨ma_sound_stop e, ma_sound_start (ma_sound_stop e), ?_, rfl, rfl, ?_, rfl, le_refl _⟩
  · rw [h1]; exact hf1
  · rw [h1]
    have h2 : (ResumeSound (updateSound reg s (ma_sound_stop e)) (some s)).reg
        = updateSound (updateSound reg s (ma_sound_stop e)) s
            (ma_sound_start (ma_sound_stop e)) := by
      simp [ResumeSound, hf1]
    rw [h2]
    exact findSound_updateSound_self _ s _ _ hf1

/-- Witness for C1 at the one-entry registry holding `soundA` (playing,
cursor 7). -/
theorem pause_then_resume_preserves_position_witness :
    findSound [("a", soundA)] "a" = some soundA ∧
    (∃ e1 e2,
      findSound (PauseSound [("a", soundA)] (some "a")).reg "a" = some e1 ∧
      e1.playing = false ∧ e1.cursor = soundA.cursor ∧
      findSound (ResumeSound (PauseSound [("a", soundA)] (some "a")).reg
        (some "a")).reg "a" = some e2 ∧
      e2.playing = true ∧ e1.cursor ≤ e2.cursor) :=
  ⟨by decide, pause_then_resume_preserves_position [("a", soundA)] "a" soundA (by decide)⟩

/-- C2: for every entry present in the registry, `StopSound` on a playing
sound stops it and leaves the cursor at frame 0; on a present but
not-playing sound it is a no-op (registry unchanged, no engine call) and
not an error (only an informational message). -/
theorem stopSound_rewinds_playing_noop_stopped
    (reg : Registry) (s : String) (e : MaSound)
    (h : findSound reg s = some e) :
    (e.playing = true →
      ∃ e1, findSound (StopSound reg (some s)).reg s = some e1 ∧
        e1.playing = false ∧ e1.cursor = 0) ∧
    (e.playing = false → StopSound reg (some s) = ⟨reg, [], [Diag.info]⟩) := by
  constructor
  · intro hp
    have h1 : StopSound reg (some s) =
        ⟨updateSound reg s (ma_sound_seek_to_pcm_frame (ma_sound_stop e) 0),
         [EngineCall.stop s, EngineCall.seek s 0], [Diag.info]⟩ := by
      simp [StopSound, h, ma_sound_is_playing, hp]
    refine ⟨ma_sound_seek_to_pcm_frame (ma_sound_stop e) 0, ?_, rfl, rfl⟩
    rw [h1]
    exact findSound_updateSound_self reg s _ e h
  · intro hp
    simp [StopSound, h, ma_sound_is_playing, hp]

/-- Witness for C2 at the one-entry registry holding `soundA`. -/
theorem stopSound_rewinds_playing_noop_stopped_witness :
    findSound [("a", soundA)] "a" = some soundA ∧
    ((soundA.playing = true →
      ∃ e1, findSound (StopSound [("a", soundA)] (some "a")).reg "a" = some e1 ∧
        e1.playing = false ∧ e1.cursor = 0) ∧
     (soundA.playing = false →
      StopSound [("a", soundA)] (some "a") = ⟨[("a", soundA)], [], [Diag.info]⟩)) :=
  ⟨by decide, stopSound_rewinds_playing_noop_stopped [("a", soundA)] "a" soundA (by decide)⟩

/-- C3: for every entry present and currently playing, `SndPlaySound` first
stops it and rewinds to frame 0, then sets the looping flag and starts it
again: the restarted entry plays from cursor 0 with the requested looping
flag, the engine calls are exactly stop, seek 0, set-looping, start (so the
stop precedes the single start and no second playback instance is layered),
and the registry keeps the same number of entries. -/
theorem sndPlaySound_restarts_from_zero
    (reg : Registry) (s : String) (e : MaSound) (loop : Bool)
    (h : findSound reg s = some e) (hp : e.playing = true) :
    ∃ e1,
      findSound (SndPlaySound reg (some s) loop).reg s = some e1 ∧
      e1.playing = true ∧ e1.cursor = 0 ∧ e1.looping = loop ∧
      (SndPlaySound reg (some s) loop).calls
        = [EngineCall.stop s, EngineCall.seek s 0,
           EngineCall.setLooping s loop, EngineCall.start s] ∧
      (SndPlaySound reg (some s) loop).reg.length = reg.length := by
  have h1 : SndPlaySound reg (some s) loop =
      ⟨updateSound reg s
         (ma_sound_start (ma_sound_set_looping
           (ma_sound_seek_to_pcm_frame (ma_sound_stop e) 0) loop)),
       [EngineCall.stop s, EngineCall.seek s 0,
        EngineCall.setLooping s loop, EngineCall.start s],
       [Diag.info]⟩ := by
    simp [SndPlaySound, h, ma_sound_is_playing, hp]
  refine ⟨ma_sound_start (ma_sound_set_looping
    (ma_sound_seek_to_pcm_frame (ma_sound_stop e) 0) loop), ?_, rfl, rfl, rfl, ?_, ?_⟩
  · rw [h1]
    exact findSound_updateSound_self reg s _ e h
  · rw [h1]
  · rw [h1]
    exact length_updateSound reg s _

/-- Witness for C3 at the one-entry registry holding `soundA`, looping. -/
theorem sndPlaySound_restarts_from_zero_witness :
    (findSound [("a", soundA)] "a" = some soundA ∧ soundA.playing = true) ∧
    (∃ e1,
      findSound (SndPlaySound [("a", soundA)] (some "a") true).reg "a" = some e1 ∧
      e1.playing = true ∧ e1.cursor = 0 ∧ e1.looping = true ∧
      (SndPlaySound [("a", soundA)] (some "a") true).calls
        = [EngineCall.stop "a", EngineCall.seek "a" 0,
           EngineCall.setLooping "a" true, EngineCall.start "a"] ∧
      (SndPlaySound [("a", soundA)] (some "a") true).reg.length
        = ([("a", soundA)] : Registry).length) :=
  ⟨⟨by decide, by decide⟩,
   sndPlaySound_restarts_from_zero [("a", soundA)] "a" soundA true (by decide) (by decide)⟩

/-- C4: loading a `soundId` that is already present succeeds, creates no
second entry and leaves the registry (hence the existing entry, with the
path and handle of the first load) completely unaltered, for any path and
any decode behaviour. -/
theorem loadSound_duplicate_idempotent
    (decode : String → Option MaSound) (reg : Registry) (fp s : String) (e : MaSound)
    (h : findSound reg s = some e) :
    LoadSound decode reg (some fp) (some s) = (true, ⟨reg, [], [Diag.duplicateWarning]⟩) := by
  simp [LoadSound, h]

/-- Witness for C4: reloading the already-present id "a" under a different
path changes nothing. -/
theorem loadSound_duplicate_idempotent_witness :
    findSound [("a", soundA)] "a" = some soundA ∧
    LoadSound (fun _ => none) [("a", soundA)] (some "other.wav") (some "a")
      = (true, ⟨[("a", soundA)], [], [Diag.duplicateWarning]⟩) :=
  ⟨by decide,
   loadSound_duplicate_idempotent (fun _ => none) [("a", soundA)] "other.wav" "a" soundA
     (by decide)⟩

/-- C5: when the engine's decode-and-prepare step fails during `LoadSound`
of a fresh id, the call returns failure, the allocation made for the new
sound is freed again (alloc followed by free in the call trace), and the
registry is exactly what it was before the call. -/
theorem loadSound_decode_failure_clean
    (decode : String → Option MaSound) (reg : Registry) (fp s : String)
    (hfresh : findSound reg s = none) (hfail : decode fp = none) :
    LoadSound decode reg (some fp) (some s)
      = (false, ⟨reg,
          [EngineCall.allocSound, EngineCall.initFromFile fp, EngineCall.freeSound],
          [Diag.loadError]⟩) := by
  simp [LoadSound, hfresh, hfail]

/-- Witness for C5: decoding "bad.wav" fails on a registry already holding
"a"; the call fails and the registry is untouched. -/
theorem loadSound_decode_failure_clean_witness :
    (findSound [("a", soundA)] "b" = none ∧
      (fun _ : String => (none : Option MaSound)) "bad.wav" = none) ∧
    LoadSound (fun _ => none) [("a", soundA)] (some "bad.wav") (some "b")
      = (false, ⟨[("a", soundA)],
          [EngineCall.allocSound, EngineCall.initFromFile "bad.wav", EngineCall.freeSound],
          [Diag.loadError]⟩) :=
  ⟨⟨by decide, rfl⟩,
   loadSound_decode_failure_clean (fun _ => none) [("a", soundA)] "bad.wav" "b"
     (by decide) rfl⟩

/-- C6: every per-sound operation other than Load (Unload, Play, Stop,
Pause, Resume and the four setters) on a soundId not present in the
registry returns normally as a warned no-op — registry unchanged, no engine
call, one `UnknownSoundId` warning — and `IsSoundPlaying` on such an id, or
on a null id, returns false rather than an error. -/
theorem unknown_id_ops_warned_noop
    (reg : Registry) (s : String) (loop : Bool) (v p q x y z : ℚ)
    (h : findSound reg s = none) :
    UnloadSound reg (some s) = ⟨reg, [], [Diag.unknownIdWarning]⟩ ∧
    SndPlaySound reg (some s) loop = ⟨reg, [], [Diag.unknownIdWarning]⟩ ∧
    StopSound reg (some s) = ⟨reg, [], [Diag.unknownIdWarning]⟩ ∧
    PauseSound reg (some s) = ⟨reg, [], [Diag.unknownIdWarning]⟩ ∧
    ResumeSound reg (some s) = ⟨reg, [], [Diag.unknownIdWarning]⟩ ∧
    SetSoundVolume reg (some s) v = ⟨reg, [], [Diag.unknownIdWarning]⟩ ∧
    SetSoundPan reg (some s) p = ⟨reg, [], [Diag.unknownIdWarning]⟩ ∧
    SetSoundPitch reg (some s) q = ⟨reg, [], [Diag.unknownIdWarning]⟩ ∧
    SetSoundPosition reg (some s) x y z = ⟨reg, [], [Diag.unknownIdWarning]⟩ ∧
    IsSoundPlaying reg (some s) = false ∧
    IsSoundPlaying reg none = false := by
  refine ⟨?_, ?_, ?_, ?_, ?_, ?_, ?_, ?_, ?_, ?_, rfl⟩ <;>
    simp [UnloadSound, SndPlaySound, StopSound, PauseSound, ResumeSound,
          SetSoundVolume, SetSoundPan, SetSoundPitch, SetSoundPosition,
          IsSoundPlaying, h]

/-- Witness for C6: the id "ghost" on a registry holding only "a". -/
theorem unknown_id_ops_warned_noop_witness :
    findSound [("a", soundA)] "ghost" = none ∧
    (UnloadSound [("a", soundA)] (some "ghost")
        = ⟨[("a", soundA)], [], [Diag.unknownIdWarning]⟩ ∧
     SndPlaySound [("a", soundA)] (some "ghost") true
        = ⟨[("a", soundA)], [], [Diag.unknownIdWarning]⟩ ∧
     StopSound [("a", soundA)] (some "ghost")
        = ⟨[("a", soundA)], [], [Diag.unknownIdWarning]⟩ ∧
     PauseSound [("a", soundA)] (some "ghost")
        = ⟨[("a", soundA)], [], [Diag.unknownIdWarning]⟩ ∧
     ResumeSound [("a", soundA)] (some "ghost")
        = ⟨[("a", soundA)], [], [Diag.unknownIdWarning]⟩ ∧
     SetSoundVolume [("a", soundA)] (some "ghost") 0
        = ⟨[("a", soundA)], [], [Diag.unknownIdWarning]⟩ ∧
     SetSoundPan [("a", soundA)] (some "ghost") 0
        = ⟨[("a", soundA)], [], [Diag.unknownIdWarning]⟩ ∧
     SetSoundPitch [("a", soundA)] (some "ghost") 0
        = ⟨[("a", soundA)], [], [Diag.unknownIdWarning]⟩ ∧
     SetSoundPosition [("a", soundA)] (some "ghost") 0 0 0
        = ⟨[("a", soundA)], [], [Diag.unknownIdWarning]⟩ ∧
     IsSoundPlaying [("a", soundA)] (some "ghost") = false ∧
     IsSoundPlaying [("a", soundA)] none = false) :=
  ⟨by decide,
   unknown_id_ops_warned_noop [("a", soundA)] "ghost" true 0 0 0 0 0 0 (by decide)⟩

/-- Counterexample to C7 as stated: an empty-string identifier is NOT
rejected as a usage error — `LoadSound` with soundId `""` succeeds, inserts
an entry under the empty key (the registry is touched) and emits only an
informational message, because the source checks only for null pointers. -/
theorem empty_id_not_rejected_cex :
    (LoadSound (fun _ => some soundB) [] (some "p.wav") (some "")).1 = true ∧
    (LoadSound (fun _ => some soundB) [] (some "p.wav") (some "")).2.reg
      = [("", soundB)] ∧
    (LoadSound (fun _ => some soundB) [] (some "p.wav") (some "")).2.reg ≠ [] ∧
    (LoadSound (fun _ => some soundB) [] (some "p.wav") (some "")).2.diags
      = [Diag.info] := by
  decide

/-- C7 (amended): for every registry operation that accepts a soundId, a
null identifier is rejected immediately with a usage error and the registry
is left untouched (for `IsSoundPlaying` the null id yields false with no
diagnostic); an empty-string identifier is not special-cased. -/
theorem null_id_rejected_usage_error
    (decode : String → Option MaSound) (reg : Registry) (a b : Option String)
    (loop : Bool) (v p q x y z : ℚ) :
    LoadSound decode reg none b = (false, ⟨reg, [], [Diag.usageError]⟩) ∧
    LoadSound decode reg a none = (false, ⟨reg, [], [Diag.usageError]⟩) ∧
    UnloadSound reg none = ⟨reg, [], [Diag.usageError]⟩ ∧
    SndPlaySound reg none loop = ⟨reg, [], [Diag.usageError]⟩ ∧
    StopSound reg none = ⟨reg, [], [Diag.usageError]⟩ ∧
    PauseSound reg none = ⟨reg, [], [Diag.usageError]⟩ ∧
    ResumeSound reg none = ⟨reg, [], [Diag.usageError]⟩ ∧
    SetSoundVolume reg none v = ⟨reg, [], [Diag.usageError]⟩ ∧
    SetSoundPan reg none p = ⟨reg, [], [Diag.usageError]⟩ ∧
    SetSoundPitch reg none q = ⟨reg, [], [Diag.usageError]⟩ ∧
    SetSoundPosition reg none x y z = ⟨reg, [], [Diag.usageError]⟩ ∧
    IsSoundPlaying reg none = false := by
  refine ⟨?_, ?_, rfl, rfl, rfl, rfl, rfl, rfl, rfl, rfl, rfl, rfl⟩
  · cases b <;> rfl
  · cases a <;> rfl

/-- Counterexample to C8 as stated: `ShutdownSoundSystem` does not stop a
playing sound before releasing it — with one playing entry, the shutdown
call trace contains no engine stop call at all (the source's shutdown loop
has no `is_playing` check, unlike `UnloadSound`). -/
theorem shutdown_no_stop_cex :
    soundA.playing = true ∧
    EngineCall.stop "a" ∉ (ShutdownSoundSystem [("a", soundA)]).calls := by
  decide

/-- C8 (amended): `ShutdownSoundSystem` releases the handle of every
remaining entry and discards it (one `soundUninit` per entry, in registry
order, with no separate stop step even for playing sounds), then releases
the engine instance; afterwards the registry is empty. -/
theorem shutdown_releases_all (reg : Registry) :
    (ShutdownSoundSystem reg).reg = [] ∧
    (ShutdownSoundSystem reg).calls
      = reg.map (fun q => EngineCall.soundUninit q.1) ++ [EngineCall.engineUninit] ∧
    (ShutdownSoundSystem reg).diags = [Diag.info] := by
  refine ⟨rfl, ?_, rfl⟩
  simp [ShutdownSoundSystem, shutdownEntryCalls_eq_map]

/-- C9: for every present entry, `SetSoundVolume` clamps the requested
volume into [0,1] (values above 1 become 1, below 0 become 0, in-range
values pass through), `SetSoundPan` clamps into [-1,1] likewise, and
`SetSoundPitch` replaces every value ≤ 0 by the positive epsilon 1/1000,
so the value handed to the engine is in range / strictly positive. -/
theorem setters_clamp_ranges
    (reg : Registry) (s : String) (e : MaSound) (v p q : ℚ)
    (h : findSound reg s = some e) :
    (∃ cv, SetSoundVolume reg (some s) v
        = ⟨updateSound reg s (ma_sound_set_volume e cv),
           [EngineCall.setVolume s cv], [Diag.info]⟩ ∧
      0 ≤ cv ∧ cv ≤ 1 ∧ (1 < v → cv = 1) ∧ (v < 0 → cv = 0) ∧
      (0 ≤ v → v ≤ 1 → cv = v)) ∧
    (∃ cp, SetSoundPan reg (some s) p
        = ⟨updateSound reg s (ma_sound_set_pan e cp),
           [EngineCall.setPan s cp], [Diag.info]⟩ ∧
      -1 ≤ cp ∧ cp ≤ 1 ∧ (1 < p → cp = 1) ∧ (p < -1 → cp = -1) ∧
      (-1 ≤ p → p ≤ 1 → cp = p)) ∧
    (∃ cq, SetSoundPitch reg (some s) q
        = ⟨updateSound reg s (ma_sound_set_pitch e cq),
           [EngineCall.setPitch s cq], [Diag.info]⟩ ∧
      0 < cq ∧ (q ≤ 0 → cq = 1 / 1000) ∧ (0 < q → cq = q)) := by
  refine ⟨⟨stdClamp v 0 1, ?_, stdClamp_lower v 0 1 (by norm_num),
      stdClamp_upper v 0 1 (by norm_num),
      fun hv => stdClamp_of_gt v 0 1 (by norm_num) hv,
      fun hv => stdClamp_of_lt v 0 1 hv,
      fun h1 h2 => stdClamp_of_mem v 0 1 h1 h2⟩,
    ⟨stdClamp p (-1) 1, ?_, stdClamp_lower p (-1) 1 (by norm_num),
      stdClamp_upper p (-1) 1 (by norm_num),
      fun hp => stdClamp_of_gt p (-1) 1 (by norm_num) hp,
      fun hp => stdClamp_of_lt p (-1) 1 hp,
      fun h1 h2 => stdClamp_of_mem p (-1) 1 h1 h2⟩,
    ⟨if q ≤ 0 then (1 : ℚ) / 1000 else q, ?_, ?_, ?_, ?_⟩⟩
  · simp [SetSoundVolume, h]
  · simp [SetSoundPan, h]
  · simp [SetSoundPitch, h]
  · split_ifs with hq
    · norm_num
    · push_neg at hq; exact hq
  · intro hq; simp [hq]
  · intro hq; rw [if_neg (not_le.mpr hq)]

/-- Witness for C9: volume 3/2 (above range), pan -2 (below range),
pitch 0 (on the floor) against the entry "a". -/
theorem setters_clamp_ranges_witness :
    findSound [("a", soundA)] "a" = some soundA ∧
    ((∃ cv, SetSoundVolume [("a", soundA)] (some "a") (3 / 2)
        = ⟨updateSound [("a", soundA)] "a" (ma_sound_set_volume soundA cv),
           [EngineCall.setVolume "a" cv], [Diag.info]⟩ ∧
      0 ≤ cv ∧ cv ≤ 1 ∧ (1 < (3 / 2 : ℚ) → cv = 1) ∧ ((3 / 2 : ℚ) < 0 → cv = 0) ∧
      (0 ≤ (3 / 2 : ℚ) → (3 / 2 : ℚ) ≤ 1 → cv = 3 / 2)) ∧
     (∃ cp, SetSoundPan [("a", soundA)] (some "a") (-2)
        = ⟨updateSound [("a", soundA)] "a" (ma_sound_set_pan soundA cp),
           [EngineCall.setPan "a" cp], [Diag.info]⟩ ∧
      -1 ≤ cp ∧ cp ≤ 1 ∧ (1 < (-2 : ℚ) → cp = 1) ∧ ((-2 : ℚ) < -1 → cp = -1) ∧
      (-1 ≤ (-2 : ℚ) → (-2 : ℚ) ≤ 1 → cp = -2)) ∧
     (∃ cq, SetSoundPitch [("a", soundA)] (some "a") 0
        = ⟨updateSound [("a", soundA)] "a" (ma_sound_set_pitch soundA cq),
           [EngineCall.setPitch "a" cq], [Diag.info]⟩ ∧
      0 < cq ∧ ((0 : ℚ) ≤ 0 → cq = 1 / 1000) ∧ ((0 : ℚ) < 0 → cq = 0))) :=
  ⟨by decide,
   setters_clamp_ranges [("a", soundA)] "a" soundA (3 / 2) (-2) 0 (by decide)⟩

/-- C10: for every present entry, `PauseSound` invokes the engine's stop
primitive unconditionally — its call trace is exactly one stop call whether
or not the sound is playing — and reports success (informational message),
whereas `StopSound` on a not-playing entry performs no engine call at all
and leaves the registry unchanged. -/
theorem pauseSound_stops_unconditionally
    (reg : Registry) (s : String) (e : MaSound)
    (h : findSound reg s = some e) :
    (PauseSound reg (some s)).calls = [EngineCall.stop s] ∧
    (PauseSound reg (some s)).diags = [Diag.info] ∧
    (e.playing = false →
      StopSound reg (some s) = ⟨reg, [], [Diag.info]⟩) := by
  refine ⟨by simp [PauseSound, h], by simp [PauseSound, h], fun hp => ?_⟩
  simp [StopSound, h, ma_sound_is_playing, hp]

/-- Witness for C10 at the one-entry registry holding `soundB` (present,
not playing, cursor 5). -/
theorem pauseSound_stops_unconditionally_witness :
    findSound [("b", soundB)] "b" = some soundB ∧
    ((PauseSound [("b", soundB)] (some "b")).calls = [EngineCall.stop "b"] ∧
     (PauseSound [("b", soundB)] (some "b")).diags = [Diag.info] ∧
     (soundB.playing = false →
       StopSound [("b", soundB)] (some "b") = ⟨[("b", soundB)], [], [Diag.info]⟩)) :=
  ⟨by decide, pauseSound_stops_unconditionally [("b", soundB)] "b" soundB (by decide)⟩
